import Mathlib

/-!
Shallow embedding of `stactools/sentinel2/stac.py` (the Sentinel-2 STAC item
assembler and image-asset classifier) together with proofs about the
behaviour of `create_item` and `image_asset_from_href`.

The Python source of `stac.py` is translated directly.  Collaborators that
live in the same repository but outside the provided sources
(`stactools.sentinel2.utils.extract_gsd`, `stactools.core.projection.
transform_from_bbox`, the constant tables of `stactools.sentinel2.constants`
and the pystac enumerations) are modelled from the specification; each such
definition carries a doc comment saying so.
-/

namespace Sentinel2

/-! ## Generic association-list dictionary (Python `dict` semantics) -/

/-- Lookup in an association list: the value of the first pair whose key
matches.  Mirrors Python `d[k]` / `k in d` on a dict represented as its
insertion-ordered item list. -/
def dictLookup {K V : Type} [DecidableEq K] : List (K × V) → K → Option V
  | [], _ => none
  | (k', v) :: rest, k => if k' = k then some v else dictLookup rest k

/-- Python `d[k] = v`: if the key is present its value is replaced in place
(keeping its position), otherwise the pair is appended at the end. -/
def dictInsert {K V : Type} [DecidableEq K] : List (K × V) → K → V → List (K × V)
  | [], k, v => [(k, v)]
  | (k', v') :: rest, k, v =>
      if k' = k then (k, v) :: rest else (k', v') :: dictInsert rest k v

/-- Python `k in d`. -/
def dictContains {K V : Type} [DecidableEq K] (m : List (K × V)) (k : K) : Bool :=
  (dictLookup m k).isSome

/-- Python `d.update(l)` (also used to build `dict(l)` from `[]`): insert the
pairs of `l` into `m` from left to right, later pairs overwriting earlier
values for the same key. -/
def updateDict {K V : Type} [DecidableEq K] (m : List (K × V)) (l : List (K × V)) :
    List (K × V) :=
  l.foldl (fun acc p => dictInsert acc p.1 p.2) m

/-- Left-biased choice on options, used to state dictionary-lookup lemmas. -/
def optOr {V : Type} : Option V → Option V → Option V
  | some v, _ => some v
  | none, b => b

/-! ## String helpers mirroring the Python primitives used by `stac.py` -/

/-- Python substring containment on the underlying character list:
`pat.isPrefixOf` tested at every suffix. -/
def containsSub (pat : List Char) : List Char → Bool
  | [] => pat.isPrefixOf []
  | a :: rest => pat.isPrefixOf (a :: rest) || containsSub pat rest

/-- Python `pat in s` for strings. -/
def strContains (s pat : String) : Bool :=
  containsSub pat.data s.data

/-- Python `str.lower()` (ASCII case folding, which is all the source needs). -/
def strToLower (s : String) : String :=
  ⟨s.data.map Char.toLower⟩

/-- Index of the last occurrence of `c` in `l`, counting from offset `i`. -/
def lastIndexOfAux (c : Char) : List Char → Nat → Option Nat
  | [], _ => none
  | a :: rest, i =>
      match lastIndexOfAux c rest (i + 1) with
      | some j => some j
      | none => if a = c then some i else none

/-- Index of the last occurrence of `c` in `l`. -/
def lastIndexOf (l : List Char) (c : Char) : Option Nat :=
  lastIndexOfAux c l 0

/-- CPython `posixpath.splitext`: split at the last dot of the final path
component, provided that dot is preceded (within the component) by at least
one character that is not itself a dot. -/
def splitext (p : String) : String × String :=
  let l := p.data
  match lastIndexOf l '.' with
  | none => (p, "")
  | some di =>
      let fi : Nat :=
        match lastIndexOf l '/' with
        | none => 0
        | some si => si + 1
      if decide (fi ≤ di) && ((l.drop fi).take (di - fi)).any (fun c => c != '.') then
        (⟨l.take di⟩, ⟨l.drop di⟩)
      else (p, "")

/-- Python slice `s[-a:-b]` for positive `a`, `b` (negative indices clamp to
the start of the string). -/
def strSliceNeg (s : String) (a b : Nat) : String :=
  let n := s.data.length
  let start := n - min n a
  let stop := n - min n b
  ⟨(s.data.drop start).take (stop - start)⟩

/-- `posixpath.join` restricted to the two-argument form used in
`create_item`. -/
def ospath_join (path : String) (b : String) : String :=
  match b.data with
  | '/' :: _ => b
  | _ =>
      if path = "" then path ++ b
      else if path.data.getLast? = some '/' then path ++ b
      else path ++ "/" ++ b

/-- A regex word character as in Python `\w` (ASCII range). -/
def isWordChar (c : Char) : Bool :=
  c.isAlphanum || c = '_'

/-- One attempted match of the regex `_(B\w{2})_` at the head of the list,
returning the captured group. -/
def bandMatchAt : List Char → Option String
  | '_' :: 'B' :: c1 :: c2 :: '_' :: _ =>
      if isWordChar c1 && isWordChar c2 then some ⟨['B', c1, c2]⟩ else none
  | _ => none

/-- `re.search(r'_(B\w{2})_', s)`: the leftmost match of the band pattern,
returning the captured band code. -/
def findBandCode : List Char → Option String
  | [] => none
  | a :: rest =>
      match bandMatchAt (a :: rest) with
      | some code => some code
      | none => findBandCode rest

/-- Value of a list of ASCII digits read in base 10. -/
def digitsToNat (l : List Char) : Nat :=
  l.foldl (fun n c => n * 10 + (c.toNat - '0'.toNat)) 0

/-! ## Collaborators modelled from the spec -/

/-- Modelled from the spec: `stactools.sentinel2.utils.extract_gsd` is not
under `src/`.  The spec says the classifier must "extract the
ground-sample-distance encoded in the filename (integer meters)", the
resolution tier being written immediately before the file extension (e.g.
`10m` in `..._B04_10m.jp2`).  The extraction fails when the filename does not
end in a digit run followed by `m` before its extension. -/
def extract_gsd (image_href : String) : Option Nat :=
  match (splitext image_href).1.data.reverse with
  | 'm' :: rest =>
      let digits := (rest.takeWhile Char.isDigit).reverse
      if digits.isEmpty then none else some (digitsToNat digits)
  | _ => none

/-- Modelled from the spec: `stactools.core.projection.transform_from_bbox`
is not under `src/`.  The spec says to "compute a geotransform (affine
mapping from pixel space to projected coordinates) from the supplied
projected bounding box and the looked-up shape"; this is the standard
north-up affine transform in row-major 6-element form. -/
def transform_from_bbox (bbox : List ℚ) (shape : List ℕ) : List ℚ :=
  match bbox, shape with
  | [xmin, ymin, xmax, ymax], [rows, cols] =>
      [(xmax - xmin) / (cols : ℚ), 0, xmin, 0, -((ymax - ymin) / (rows : ℚ)), ymax]
  | _, _ => []

namespace MediaType

/-- Modelled from the spec: `pystac.MediaType.JPEG2000` (media types are an
enumeration of string constants: JPEG2000, GEOTIFF, XML, COG). -/
def JPEG2000 : String := "image/jp2"

/-- Modelled from the spec: `pystac.MediaType.GEOTIFF`. -/
def GEOTIFF : String := "image/tiff; application=geotiff"

/-- Modelled from the spec: `pystac.MediaType.XML`. -/
def XML : String := "application/xml"

/-- Modelled from the spec: `pystac.MediaType.COG`. -/
def COG : String := "image/tiff; application=geotiff; profile=cloud-optimized"

end MediaType

/-- A spectral band descriptor as held by the fixed band table. -/
structure Band where
  name : String
  common_name : String
  description : String
deriving DecidableEq

/-- Modelled from the spec: `stactools.sentinel2.constants.SENTINEL_BANDS`,
the "fixed lookup table keyed by band code (e.g. "B04") → {description, ...};
read-only, process-wide constant". -/
def SENTINEL_BANDS : List (String × Band) :=
  [("B01", ⟨"B01", "coastal", "Band 1 - Coastal aerosol - 60m"⟩),
   ("B02", ⟨"B02", "blue", "Band 2 - Blue - 10m"⟩),
   ("B03", ⟨"B03", "green", "Band 3 - Green - 10m"⟩),
   ("B04", ⟨"B04", "red", "Band 4 - Red - 10m"⟩),
   ("B05", ⟨"B05", "rededge", "Band 5 - Vegetation red edge 1 - 20m"⟩),
   ("B06", ⟨"B06", "rededge", "Band 6 - Vegetation red edge 2 - 20m"⟩),
   ("B07", ⟨"B07", "rededge", "Band 7 - Vegetation red edge 3 - 20m"⟩),
   ("B08", ⟨"B08", "nir", "Band 8 - NIR - 10m"⟩),
   ("B8A", ⟨"B8A", "nir08", "Band 8A - Narrow NIR - 20m"⟩),
   ("B09", ⟨"B09", "nir09", "Band 9 - Water vapor - 60m"⟩),
   ("B10", ⟨"B10", "cirrus", "Band 10 - Cirrus - 60m"⟩),
   ("B11", ⟨"B11", "swir16", "Band 11 - SWIR (1.6) - 20m"⟩),
   ("B12", ⟨"B12", "swir22", "Band 12 - SWIR (2.2) - 20m"⟩)]

/-- Total access to the band table for the hard-coded lookups
`SENTINEL_BANDS['B04']` etc., which cannot fail. -/
def sentinelBand (code : String) : Band :=
  (dictLookup SENTINEL_BANDS code).getD ⟨"", "", ""⟩

/-- Modelled from the spec: the pystac `OrbitState` enumeration that
`create_item` case-normalizes the product orbit state into. -/
inductive OrbitState where
  | ascending
  | descending
  | geostationary
deriving DecidableEq

/-- Modelled from the spec: construction of an `OrbitState` from its
lower-case string value, as done by `OrbitState(product_metadata.orbit_state.lower())`;
a value outside the enumeration raises. -/
def OrbitState.fromString (s : String) : Option OrbitState :=
  if s = "ascending" then some .ascending
  else if s = "descending" then some .descending
  else if s = "geostationary" then some .geostationary
  else none

/-- Modelled from the spec: `INSPIRE_METADATA_ASSET_KEY` from
`stactools.sentinel2.constants`. -/
def INSPIRE_METADATA_ASSET_KEY : String := "inspire-metadata"

/-- Modelled from the spec: `DATASTRIP_METADATA_ASSET_KEY` from
`stactools.sentinel2.constants`. -/
def DATASTRIP_METADATA_ASSET_KEY : String := "datastrip-metadata"

/-- Modelled from the spec: the fixed default provider entry
`SENTINEL_PROVIDER` (represented by its name). -/
def SENTINEL_PROVIDER : String := "ESA"

/-- Modelled from the spec: the fixed license link `SENTINEL_LICENSE`
(represented by its target). -/
def SENTINEL_LICENSE : String :=
  "license:https://sentinel.esa.int/documents/247904/690755/Sentinel_Data_Legal_Notice"

/-- Modelled from the spec: `SENTINEL_CONSTELLATION`. -/
def SENTINEL_CONSTELLATION : String := "Sentinel 2"

/-- Modelled from the spec: `SENTINEL_INSTRUMENTS`. -/
def SENTINEL_INSTRUMENTS : List String := ["msi"]

/-! ## Data model -/

/-- A STAC asset as populated by `stac.py`: href, media type, title and
roles, plus the optional per-asset extension fields the source sets
(electro-optical band list, gsd, projection shape / bbox / transform). -/
structure Asset where
  href : String
  media_type : String
  title : Option String
  roles : List String
  eo_bands : Option (List Band)
  gsd : Option Nat
  proj_shape : Option (List Nat)
  proj_bbox : Option (List ℚ)
  proj_transform : Option (List ℚ)
deriving DecidableEq

/-- Output of the `SafeManifest` reader, an external collaborator: the
discovered hrefs plus the `(key, asset)` pair returned by its
`create_asset()`. -/
structure SafeManifest where
  product_metadata_href : String
  granule_metadata_href : String
  inspire_metadata_href : String
  datastrip_metadata_href : String
  thumbnail_href : Option String
  manifest_asset_key : String
  manifest_asset : Asset
deriving DecidableEq

/-- Output of the `ProductMetadata` reader, an external collaborator. -/
structure ProductMetadata where
  product_id : String
  geometry : String
  bbox : List ℚ
  datetime : String
  platform : String
  orbit_state : String
  relative_orbit : Int
  image_media_type : Option String
  image_paths : List String
  metadata_dict : List (String × String)
  product_asset_key : String
  product_asset : Asset
deriving DecidableEq

/-- Output of the `GranuleMetadata` reader, an external collaborator. -/
structure GranuleMetadata where
  cloudiness_percentage : Option ℚ
  epsg : Option Int
  resolution_to_shape : List (Nat × Nat × Nat)
  proj_bbox : List ℚ
  metadata_dict : List (String × String)
  granule_asset_key : String
  granule_asset : Asset
deriving DecidableEq

/-- The assembled STAC item: identity/geometry/time fields, the merged
property map, common metadata, the three extension namespaces, the asset
map and the links. -/
structure Item where
  id : String
  geometry : String
  bbox : List ℚ
  datetime : String
  properties : List (String × String)
  providers : List String
  platform : String
  constellation : String
  instruments : List String
  eo_cloud_cover : Option ℚ
  sat_orbit_state : OrbitState
  sat_relative_orbit : Int
  proj_epsg : Int
  assets : List (String × Asset)
  links : List String
deriving DecidableEq

/-! ## The classifier `image_asset_from_href` -/

/-- The failure modes of `image_asset_from_href`:
* `unknownMediaType` — `Exception('Must supply a media type for asset : ...')`;
* `gsdError` — failure of the (spec-modelled) `extract_gsd` on a filename
  that encodes no resolution tier;
* `keyErrorResolution` — Python `KeyError` from `resolution_to_shape[int(gsd)]`;
* `keyErrorBand` — Python `KeyError` from `SENTINEL_BANDS[band_id]`;
* `unclassified` — `ValueError('Unexpected asset: ...')`. -/
inductive ClassifierError where
  | unknownMediaType (href : String)
  | gsdError (href : String)
  | keyErrorResolution (gsd : Nat)
  | keyErrorBand (code : String)
  | unclassified (href : String)
deriving DecidableEq

/-- Whether a classifier error is a Python `KeyError` (a failed dictionary
lookup). -/
def ClassifierError.isKeyError : ClassifierError → Bool
  | .keyErrorResolution _ => true
  | .keyErrorBand _ => true
  | _ => false

/-- Whether a classifier result is a `KeyError`-class failure. -/
def isKeyErrorResult (r : Except ClassifierError (String × Asset)) : Bool :=
  match r with
  | .error e => e.isKeyError
  | .ok _ => false

/-- Lines 151–161 of `stac.py`: use the caller-supplied media type when
present, otherwise infer it from the lowered file extension, otherwise
fail. -/
def determine_media_type (media_type : Option String) (asset_href : String) :
    Except ClassifierError String :=
  match media_type with
  | some m => .ok m
  | none =>
      let ext := (splitext asset_href).2
      if strToLower ext = ".jp2" then .ok MediaType.JPEG2000
      else if strToLower ext = ".tiff" ∨ strToLower ext = ".tif" then .ok MediaType.GEOTIFF
      else .error (.unknownMediaType asset_href)

/-- Lines 143–245 of `stac.py`: classify one image href into a
`(key, asset)` pair.  The structure mirrors the source: media-type
determination, the `_PVI` preview branch, then gsd/shape/transform
computation, then the band-pattern branch, then the `_TCI_`/`_AOT_`/
`_WVP_`/`_SCL_` branches, and finally the unclassified failure. -/
def image_asset_from_href (asset_href : String)
    (resolution_to_shape : List (Nat × Nat × Nat)) (proj_bbox : List ℚ)
    (media_type : Option String) : Except ClassifierError (String × Asset) :=
  match determine_media_type media_type asset_href with
  | .error e => .error e
  | .ok asset_media_type =>
    if strContains asset_href "_PVI" then
      .ok ("preview",
        { href := asset_href, media_type := asset_media_type,
          title := some "True color preview", roles := ["data"],
          eo_bands := some [sentinelBand "B04", sentinelBand "B03", sentinelBand "B02"],
          gsd := none, proj_shape := none, proj_bbox := none, proj_transform := none })
    else
      match extract_gsd asset_href with
      | none => .error (.gsdError asset_href)
      | some gsd =>
        match dictLookup resolution_to_shape gsd with
        | none => .error (.keyErrorResolution gsd)
        | some shp =>
          let shape : List Nat := [shp.1, shp.2]
          let transform := transform_from_bbox proj_bbox shape
          match findBandCode asset_href.data with
          | some band_id =>
            match dictLookup SENTINEL_BANDS band_id with
            | none => .error (.keyErrorBand band_id)
            | some band =>
              .ok (band_id,
                { href := asset_href, media_type := asset_media_type,
                  title := some band.description, roles := ["data"],
                  eo_bands := some [band], gsd := some gsd,
                  proj_shape := some shape, proj_bbox := some proj_bbox,
                  proj_transform := some transform })
          | none =>
            if strContains asset_href "_TCI_" then
              .ok ("visual-" ++ strSliceNeg asset_href 7 4,
                { href := asset_href, media_type := asset_media_type,
                  title := some "True color image", roles := ["data"],
                  eo_bands := some [sentinelBand "B04", sentinelBand "B03", sentinelBand "B02"],
                  gsd := some gsd, proj_shape := some shape,
                  proj_bbox := some proj_bbox, proj_transform := some transform })
            else if strContains asset_href "_AOT_" then
              .ok ("AOT-" ++ strSliceNeg asset_href 7 4,
                { href := asset_href, media_type := asset_media_type,
                  title := some "Aerosol optical thickness (AOT)", roles := ["data"],
                  eo_bands := none, gsd := some gsd, proj_shape := some shape,
                  proj_bbox := some proj_bbox, proj_transform := some transform })
            else if strContains asset_href "_WVP_" then
              .ok ("WVP-" ++ strSliceNeg asset_href 7 4,
                { href := asset_href, media_type := asset_media_type,
                  title := some "Water vapour (WVP)", roles := ["data"],
                  eo_bands := none, gsd := some gsd, proj_shape := some shape,
                  proj_bbox := some proj_bbox, proj_transform := some transform })
            else if strContains asset_href "_SCL_" then
              .ok ("SCL-" ++ strSliceNeg asset_href 7 4,
                { href := asset_href, media_type := asset_media_type,
                  title := some "Scene classfication map (SCL)", roles := ["data"],
                  eo_bands := none, gsd := some gsd, proj_shape := some shape,
                  proj_bbox := some proj_bbox, proj_transform := some transform })
            else .error (.unclassified asset_href)

/-! ## The assembler `create_item` -/

/-- The failure modes of `create_item`:
* `valueErrorOrbitState` — `OrbitState(...)` raised on an unknown value;
* `valueErrorEpsg` — the `ValueError` of lines 84–87 when no EPSG code is
  available;
* `assertionError` — the duplicate-asset-key assertion of line 124;
* `classifier` — a propagated classifier failure. -/
inductive CreateItemError where
  | valueErrorOrbitState (orbit_state : String)
  | valueErrorEpsg (msg : String)
  | assertionError
  | classifier (e : ClassifierError)
deriving DecidableEq

/-- Lines 89–93 of `stac.py`:
`item.properties.update({**product_metadata.metadata_dict, **granule_metadata.metadata_dict})`
applied to the initially empty property map. -/
def mergedProperties (product_metadata : ProductMetadata)
    (granule_metadata : GranuleMetadata) : List (String × String) :=
  updateDict (updateDict [] product_metadata.metadata_dict)
    granule_metadata.metadata_dict

/-- Lines 99–111 of `stac.py`: the five metadata assets added before the
image assets (`add_asset` is a plain dictionary insertion). -/
def metadataAssets (safe_manifest : SafeManifest)
    (product_metadata : ProductMetadata) (granule_metadata : GranuleMetadata) :
    List (String × Asset) :=
  let a0 := dictInsert [] safe_manifest.manifest_asset_key safe_manifest.manifest_asset
  let a1 := dictInsert a0 product_metadata.product_asset_key product_metadata.product_asset
  let a2 := dictInsert a1 granule_metadata.granule_asset_key granule_metadata.granule_asset
  let a3 := dictInsert a2 INSPIRE_METADATA_ASSET_KEY
      { href := safe_manifest.inspire_metadata_href, media_type := MediaType.XML,
        title := none, roles := ["metadata"], eo_bands := none, gsd := none,
        proj_shape := none, proj_bbox := none, proj_transform := none }
  dictInsert a3 DATASTRIP_METADATA_ASSET_KEY
      { href := safe_manifest.datastrip_metadata_href, media_type := MediaType.XML,
        title := none, roles := ["metadata"], eo_bands := none, gsd := none,
        proj_shape := none, proj_bbox := none, proj_transform := none }

/-- Lines 116–121 of `stac.py`: classify every declared image path, each
joined onto the granule href. -/
def classifyImages (granule_href : String) (product_metadata : ProductMetadata)
    (granule_metadata : GranuleMetadata) :
    Except ClassifierError (List (String × Asset)) :=
  product_metadata.image_paths.mapM (fun image_path =>
    image_asset_from_href (ospath_join granule_href image_path)
      granule_metadata.resolution_to_shape granule_metadata.proj_bbox
      product_metadata.image_media_type)

/-- Lines 123–125 of `stac.py`: add each image asset after asserting its key
is not already present; `none` signals the `AssertionError`. -/
def addImageAssets : List (String × Asset) → List (String × Asset) →
    Option (List (String × Asset))
  | assets, [] => some assets
  | assets, (k, a) :: rest =>
      if dictContains assets k then none
      else addImageAssets (dictInsert assets k a) rest

/-- Lines 127–134 of `stac.py`: attach the thumbnail under key `"preview"`
when the manifest discovered one. -/
def withThumbnail (safe_manifest : SafeManifest) (assets : List (String × Asset)) :
    List (String × Asset) :=
  match safe_manifest.thumbnail_href with
  | none => assets
  | some t =>
      dictInsert assets "preview"
        { href := t, media_type := MediaType.COG, title := none,
          roles := ["thumbnail"], eo_bands := none, gsd := none,
          proj_shape := none, proj_bbox := none, proj_transform := none }

/-- Lines 27–140 of `stac.py`: assemble the STAC item from the three reader
outputs.  The failure order mirrors the source: the orbit-state conversion
(line 78), the EPSG check (lines 84–87), classification of the image hrefs
(lines 116–121), the duplicate-key assertion (line 124). -/
def create_item (granule_href : String) (safe_manifest : SafeManifest)
    (product_metadata : ProductMetadata) (granule_metadata : GranuleMetadata)
    (additional_providers : List String) : Except CreateItemError Item :=
  match OrbitState.fromString (strToLower product_metadata.orbit_state) with
  | none => .error (.valueErrorOrbitState product_metadata.orbit_state)
  | some orbit_state =>
    match granule_metadata.epsg with
    | none =>
        .error (.valueErrorEpsg
          ("Could not determine EPSG code for " ++ granule_href ++ "; which is required."))
    | some epsg =>
      match classifyImages granule_href product_metadata granule_metadata with
      | .error e => .error (.classifier e)
      | .ok pairs =>
        match addImageAssets
            (metadataAssets safe_manifest product_metadata granule_metadata)
            (updateDict [] pairs) with
        | none => .error .assertionError
        | some assets =>
          .ok { id := product_metadata.product_id,
                geometry := product_metadata.geometry,
                bbox := product_metadata.bbox,
                datetime := product_metadata.datetime,
                properties := mergedProperties product_metadata granule_metadata,
                providers := SENTINEL_PROVIDER :: additional_providers,
                platform := product_metadata.platform,
                constellation := SENTINEL_CONSTELLATION,
                instruments := SENTINEL_INSTRUMENTS,
                eo_cloud_cover := granule_metadata.cloudiness_percentage,
                sat_orbit_state := orbit_state,
                sat_relative_orbit := product_metadata.relative_orbit,
                proj_epsg := epsg,
                assets := withThumbnail safe_manifest assets,
                links := [SENTINEL_LICENSE] }

end Sentinel2

namespace Sentinel2

/-! ## Helper lemmas -/

theorem string_data_append (x y : String) : (x ++ y).data = x.data ++ y.data := rfl

theorem isPrefixOf_append_self (p y : List Char) : p.isPrefixOf (p ++ y) = true := by
  induction p with
  | nil => simp
  | cons a t ih => rw [List.cons_append, List.isPrefixOf_cons₂]; simp [ih]

theorem containsSub_self_append (p y : List Char) : containsSub p (p ++ y) = true := by
  cases hpy : p ++ y with
  | nil =>
      have hp : p = [] := (List.append_eq_nil.mp hpy).1
      subst hp; rfl
  | cons a rest =>
      show (p.isPrefixOf (a :: rest) || containsSub p rest) = true
      rw [← hpy, isPrefixOf_append_self]
      rfl

theorem containsSub_append (p x y : List Char) : containsSub p (x ++ (p ++ y)) = true := by
  induction x with
  | nil => simpa using containsSub_self_append p y
  | cons a t ih =>
      rw [List.cons_append]
      show (p.isPrefixOf (a :: (t ++ (p ++ y))) || containsSub p (t ++ (p ++ y))) = true
      rw [ih]
      simp

theorem strContains_append (a s b : String) : strContains (a ++ s ++ b) s = true := by
  have h : (a ++ s ++ b).data = a.data ++ (s.data ++ b.data) := by
    rw [string_data_append, string_data_append, List.append_assoc]
  rw [strContains, h]
  exact containsSub_append s.data a.data b.data

theorem dictLookup_dictInsert {K V : Type} [DecidableEq K] (m : List (K × V)) (k k' : K)
    (v : V) : dictLookup (dictInsert m k v) k' = if k = k' then some v else dictLookup m k' := by
  induction m with
  | nil => rfl
  | cons a t ih =>
      obtain ⟨ka, va⟩ := a
      by_cases h : ka = k
      · subst h
        by_cases h2 : ka = k' <;> simp [dictInsert, dictLookup, h2]
      · by_cases h2 : ka = k' <;> by_cases h3 : k = k' <;>
          simp_all [dictInsert, dictLookup, h, h2, h3]

theorem dictLookup_append {K V : Type} [DecidableEq K] (xs ys : List (K × V)) (k : K) :
    dictLookup (xs ++ ys) k = optOr (dictLookup xs k) (dictLookup ys k) := by
  induction xs with
  | nil => rfl
  | cons a t ih =>
      obtain ⟨ka, va⟩ := a
      by_cases h : ka = k <;> simp [dictLookup, h, ih, optOr]

theorem dictLookup_updateDict {K V : Type} [DecidableEq K] (m l : List (K × V)) (k : K) :
    dictLookup (updateDict m l) k = optOr (dictLookup l.reverse k) (dictLookup m k) := by
  induction l generalizing m with
  | nil => rfl
  | cons a t ih =>
      obtain ⟨ka, va⟩ := a
      show dictLookup (updateDict (dictInsert m ka va) t) k = _
      rw [ih, List.reverse_cons, dictLookup_append, dictLookup_dictInsert]
      cases dictLookup t.reverse k <;> by_cases h : ka = k <;> simp [optOr, dictLookup, h]

theorem dictLookup_eq_none_of_not_mem {K V : Type} [DecidableEq K] (l : List (K × V)) (k : K)
    (h : k ∉ l.map Prod.fst) : dictLookup l k = none := by
  induction l with
  | nil => rfl
  | cons a t ih =>
      simp only [List.map_cons, List.mem_cons, not_or] at h
      have : a.1 ≠ k := fun hc => h.1 hc.symm
      obtain ⟨ka, va⟩ := a
      simp only [dictLookup, if_neg this]
      exact ih h.2

theorem dictLookup_reverse_of_nodup {K V : Type} [DecidableEq K] (l : List (K × V))
    (h : (l.map Prod.fst).Nodup) (k : K) : dictLookup l.reverse k = dictLookup l k := by
  induction l with
  | nil => rfl
  | cons a t ih =>
      obtain ⟨ka, va⟩ := a
      simp only [List.map_cons, List.nodup_cons] at h
      rw [List.reverse_cons, dictLookup_append, ih h.2]
      by_cases hk : ka = k
      · subst hk
        have hnone : dictLookup t ka = none :=
          dictLookup_eq_none_of_not_mem t ka h.1
        simp [hnone, optOr, dictLookup]
      · simp only [dictLookup, if_neg hk]
        cases dictLookup t k <;> simp [optOr, dictLookup, hk]

theorem create_item_ok_properties (granule_href : String) (sm : SafeManifest)
    (pm : ProductMetadata) (gm : GranuleMetadata) (addl : List String) (it : Item)
    (hok : create_item granule_href sm pm gm addl = Except.ok it) :
    it.properties = mergedProperties pm gm := by
  unfold create_item at hok
  split at hok
  · exact absurd hok (by simp)
  · split at hok
    · exact absurd hok (by simp)
    · split at hok
      · exact absurd hok (by simp)
      · split at hok
        · exact absurd hok (by simp)
        · injection hok with h
          rw [← h]

end Sentinel2

namespace Sentinel2

/-! ## Claim theorems -/

/-- C2 counterexample: the image href `S2A.SAFE/GRANULE/T01CCV_XYZ_10m.jp2`
has a determinable media type (its extension is `.jp2`) and contains none of
the markers `_PVI`, `_B<2 word chars>_`, `_TCI_`, `_AOT_`, `_WVP_`, `_SCL_`,
yet with an empty resolution table the classifier fails with a `KeyError`
from the resolution lookup — which happens before the role cascade — and not
with the unclassified-asset error, refuting the claim as stated. -/
theorem c2_counterexample :
    determine_media_type none "S2A.SAFE/GRANULE/T01CCV_XYZ_10m.jp2" = .ok MediaType.JPEG2000 ∧
    strContains "S2A.SAFE/GRANULE/T01CCV_XYZ_10m.jp2" "_PVI" = false ∧
    findBandCode "S2A.SAFE/GRANULE/T01CCV_XYZ_10m.jp2".data = none ∧
    strContains "S2A.SAFE/GRANULE/T01CCV_XYZ_10m.jp2" "_TCI_" = false ∧
    strContains "S2A.SAFE/GRANULE/T01CCV_XYZ_10m.jp2" "_AOT_" = false ∧
    strContains "S2A.SAFE/GRANULE/T01CCV_XYZ_10m.jp2" "_WVP_" = false ∧
    strContains "S2A.SAFE/GRANULE/T01CCV_XYZ_10m.jp2" "_SCL_" = false ∧
    image_asset_from_href "S2A.SAFE/GRANULE/T01CCV_XYZ_10m.jp2"
      [] [499980, 6090220, 609780, 6200020] none = .error (.keyErrorResolution 10) ∧
    Except.error (ClassifierError.keyErrorResolution 10) ≠
      (Except.error (ClassifierError.unclassified "S2A.SAFE/GRANULE/T01CCV_XYZ_10m.jp2") :
        Except ClassifierError (String × Asset)) :=
  ⟨rfl, rfl, rfl, rfl, rfl, rfl, rfl, rfl, by simp⟩

/-- C2 (amended): for every image href whose media type is determinable,
that contains none of the markers `_PVI`, `_B<2 word chars>_`, `_TCI_`,
`_AOT_`, `_WVP_`, `_SCL_`, and whose encoded ground-sample-distance is
extractable and present in the resolution table, the classifier fails with
the unclassified-asset error carrying the offending href. -/
theorem c2_unclassified_error (asset_href : String) (table : List (Nat × Nat × Nat))
    (bbox : List ℚ) (mt : Option String) (m : String) (g : Nat) (shp : Nat × Nat)
    (hm : determine_media_type mt asset_href = .ok m)
    (hpvi : strContains asset_href "_PVI" = false)
    (hband : findBandCode asset_href.data = none)
    (htci : strContains asset_href "_TCI_" = false)
    (haot : strContains asset_href "_AOT_" = false)
    (hwvp : strContains asset_href "_WVP_" = false)
    (hscl : strContains asset_href "_SCL_" = false)
    (hgsd : extract_gsd asset_href = some g)
    (hres : dictLookup table g = some shp) :
    image_asset_from_href asset_href table bbox mt = .error (.unclassified asset_href) := by
  unfold image_asset_from_href
  rw [hm]
  simp [hpvi, hgsd, hres, hband, htci, haot, hwvp, hscl]

/-- C2 witness: the scenario-4 path with the scenario-1 resolution table
yields the unclassified-asset error carrying the href. -/
theorem c2_unclassified_error_witness :
    image_asset_from_href "S2A.SAFE/GRANULE/T01CCV_XYZ_10m.jp2"
      [(10, (10980, 10980))] [499980, 6090220, 609780, 6200020] none
      = .error (.unclassified "S2A.SAFE/GRANULE/T01CCV_XYZ_10m.jp2") :=
  c2_unclassified_error "S2A.SAFE/GRANULE/T01CCV_XYZ_10m.jp2"
    [(10, (10980, 10980))] [499980, 6090220, 609780, 6200020] none
    MediaType.JPEG2000 10 (10980, 10980) rfl rfl rfl rfl rfl rfl rfl rfl rfl

/-- C4: every image href containing `_PVI` — including one that also matches
the band-code pattern — classifies as key `"preview"` with bands
[B04, B03, B02] and no gsd/shape/projection-bbox/geotransform fields; the
preview rule has priority over the band rule. -/
theorem c4_pvi_priority (asset_href : String) (table : List (Nat × Nat × Nat))
    (bbox : List ℚ) (mt : Option String) (m : String)
    (hm : determine_media_type mt asset_href = .ok m)
    (hpvi : strContains asset_href "_PVI" = true) :
    image_asset_from_href asset_href table bbox mt =
      .ok ("preview",
        { href := asset_href, media_type := m,
          title := some "True color preview", roles := ["data"],
          eo_bands := some [sentinelBand "B04", sentinelBand "B03", sentinelBand "B02"],
          gsd := none, proj_shape := none, proj_bbox := none, proj_transform := none }) := by
  unfold image_asset_from_href
  rw [hm]
  simp [hpvi]

/-- C4 witness: the path `S2A.SAFE/GRANULE/T01CCV_B04_PVI.jp2` contains both
`_PVI` and the band-code substring `_B04_` and still classifies as preview. -/
theorem c4_pvi_priority_witness :
    findBandCode "S2A.SAFE/GRANULE/T01CCV_B04_PVI.jp2".data = some "B04" ∧
    image_asset_from_href "S2A.SAFE/GRANULE/T01CCV_B04_PVI.jp2" [] [] none =
      .ok ("preview",
        { href := "S2A.SAFE/GRANULE/T01CCV_B04_PVI.jp2", media_type := MediaType.JPEG2000,
          title := some "True color preview", roles := ["data"],
          eo_bands := some [sentinelBand "B04", sentinelBand "B03", sentinelBand "B02"],
          gsd := none, proj_shape := none, proj_bbox := none, proj_transform := none }) :=
  ⟨rfl, c4_pvi_priority "S2A.SAFE/GRANULE/T01CCV_B04_PVI.jp2" [] [] none
    MediaType.JPEG2000 rfl rfl⟩

/-- C5: when a media type is supplied it is used unchanged regardless of the
extension; with none supplied, extension `.jp2` yields JPEG2000 and `.tif`
or `.tiff` yields GEOTIFF; and an unrecognized extension with no supplied
media type makes the whole classification fail with the unknown-media-type
error (before any role detection, whatever the href contains and whatever
the table and bbox are). -/
theorem c5_media_type_determination (asset_href : String) :
    (∀ m : String, determine_media_type (some m) asset_href = .ok m) ∧
    ((splitext asset_href).2 = ".jp2" →
      determine_media_type none asset_href = .ok MediaType.JPEG2000) ∧
    ((splitext asset_href).2 = ".tif" ∨ (splitext asset_href).2 = ".tiff" →
      determine_media_type none asset_href = .ok MediaType.GEOTIFF) ∧
    (strToLower (splitext asset_href).2 ≠ ".jp2" →
      strToLower (splitext asset_href).2 ≠ ".tif" →
      strToLower (splitext asset_href).2 ≠ ".tiff" →
      ∀ (table : List (Nat × Nat × Nat)) (bbox : List ℚ),
        image_asset_from_href asset_href table bbox none =
          .error (.unknownMediaType asset_href)) := by
  refine ⟨fun m => rfl, ?_, ?_, ?_⟩
  · intro h
    unfold determine_media_type
    rw [h]
    rfl
  · rintro (h | h) <;> (unfold determine_media_type; rw [h]) <;> rfl
  · intro h1 h2 h3 table bbox
    have hm : determine_media_type none asset_href = .error (.unknownMediaType asset_href) := by
      unfold determine_media_type
      rw [if_neg h1, if_neg (not_or.mpr ⟨h3, h2⟩)]
    unfold image_asset_from_href
    rw [hm]

/-- C5 witness: a supplied media type is passed through; `.jp2` and `.tif`
infer their types; an unrecognized `.png` with no supplied type fails. -/
theorem c5_media_type_determination_witness :
    determine_media_type (some "text/plain") "a.png" = .ok "text/plain" ∧
    determine_media_type none "a.jp2" = .ok MediaType.JPEG2000 ∧
    determine_media_type none "a.tif" = .ok MediaType.GEOTIFF ∧
    image_asset_from_href "a.png" [] [] none = .error (.unknownMediaType "a.png") :=
  ⟨(c5_media_type_determination "a.png").1 "text/plain",
   (c5_media_type_determination "a.jp2").2.1 rfl,
   (c5_media_type_determination "a.tif").2.2.1 (Or.inl rfl),
   (c5_media_type_determination "a.png").2.2.2 (by decide) (by decide) (by decide) [] []⟩

/-- C9: extension-based media-type inference is case-insensitive — any href
whose extension case-folds to `.jp2` infers JPEG2000 and any whose extension
case-folds to `.tif` or `.tiff` infers GEOTIFF, with no override supplied. -/
theorem c9_extension_case_insensitive (asset_href : String) :
    (strToLower (splitext asset_href).2 = ".jp2" →
      determine_media_type none asset_href = .ok MediaType.JPEG2000) ∧
    (strToLower (splitext asset_href).2 = ".tif" ∨
        strToLower (splitext asset_href).2 = ".tiff" →
      determine_media_type none asset_href = .ok MediaType.GEOTIFF) := by
  constructor
  · intro h
    unfold determine_media_type
    rw [if_pos h]
  · intro h
    unfold determine_media_type
    have h1 : ¬strToLower (splitext asset_href).2 = ".jp2" := by
      rcases h with h | h <;> rw [h] <;> decide
    rw [if_neg h1, if_pos (Or.symm h)]

/-- C9 witness: `.JP2` and `.TIFF` infer the same media types as their
lowercase forms. -/
theorem c9_extension_case_insensitive_witness :
    determine_media_type none "a.JP2" = .ok MediaType.JPEG2000 ∧
    determine_media_type none "a.TIFF" = .ok MediaType.GEOTIFF :=
  ⟨(c9_extension_case_insensitive "a.JP2").1 rfl,
   (c9_extension_case_insensitive "a.TIFF").2 (Or.inr rfl)⟩

end Sentinel2

namespace Sentinel2

/-- C6: whenever classification reaches the auxiliary-image cascade (media
type determinable, no `_PVI`, gsd extractable and in the table, no band-code
match) and the href carries one of the markers `_TCI_`, `_AOT_`, `_WVP_`,
`_SCL_`, the returned key is the role prefix (`visual`, `AOT`, `WVP`, `SCL`)
joined by a hyphen to the Python slice `href[-7:-4]` — the 3 characters
immediately before the 4-character file extension — with the markers tested
in the source's priority order. -/
theorem c6_aux_key_from_slice (asset_href : String) (table : List (Nat × Nat × Nat))
    (bbox : List ℚ) (mt : Option String) (m : String) (g : Nat) (shp : Nat × Nat)
    (hm : determine_media_type mt asset_href = .ok m)
    (hpvi : strContains asset_href "_PVI" = false)
    (hgsd : extract_gsd asset_href = some g)
    (hres : dictLookup table g = some shp)
    (hband : findBandCode asset_href.data = none)
    (hmarker : strContains asset_href "_TCI_" = true ∨ strContains asset_href "_AOT_" = true ∨
      strContains asset_href "_WVP_" = true ∨ strContains asset_href "_SCL_" = true) :
    (image_asset_from_href asset_href table bbox mt).toOption.map Prod.fst =
      some (if strContains asset_href "_TCI_" then "visual-" ++ strSliceNeg asset_href 7 4
        else if strContains asset_href "_AOT_" then "AOT-" ++ strSliceNeg asset_href 7 4
        else if strContains asset_href "_WVP_" then "WVP-" ++ strSliceNeg asset_href 7 4
        else "SCL-" ++ strSliceNeg asset_href 7 4) := by
  unfold image_asset_from_href
  rw [hm]
  cases h1 : strContains asset_href "_TCI_" <;>
    cases h2 : strContains asset_href "_AOT_" <;>
    cases h3 : strContains asset_href "_WVP_" <;>
    cases h4 : strContains asset_href "_SCL_" <;>
    simp_all [hpvi, hgsd, hres, hband, Except.toOption]

/-- C6 witness: `S2A.SAFE/GRANULE/T01CCV_TCI_10m.jp2` gets key
`visual-10m`, whose suffix `10m` is the slice `href[-7:-4]`. -/
theorem c6_aux_key_from_slice_witness :
    (image_asset_from_href "S2A.SAFE/GRANULE/T01CCV_TCI_10m.jp2"
        [(10, (10980, 10980))] [499980, 6090220, 609780, 6200020] none).toOption.map Prod.fst =
      some ("visual-" ++ strSliceNeg "S2A.SAFE/GRANULE/T01CCV_TCI_10m.jp2" 7 4) ∧
    strSliceNeg "S2A.SAFE/GRANULE/T01CCV_TCI_10m.jp2" 7 4 = "10m" :=
  ⟨c6_aux_key_from_slice "S2A.SAFE/GRANULE/T01CCV_TCI_10m.jp2"
    [(10, (10980, 10980))] [499980, 6090220, 609780, 6200020] none
    MediaType.JPEG2000 10 (10980, 10980) rfl rfl rfl rfl rfl (Or.inl rfl),
   rfl⟩

/-- C8: end-to-end scenario 1 — the path
`S2A.SAFE/GRANULE/T01CCV_20210214T042702_B04_10m.jp2` with resolution table
`{10: (10980, 10980)}`, projected bbox `[499980, 6090220, 609780, 6200020]`
and no media-type override classifies as key `"B04"` with media type
JPEG2000, the single-band EO annotation for B04, shape `[10980, 10980]`, the
supplied projected bbox, the geotransform computed from that bbox and shape,
and ground-sample-distance 10. -/
theorem c8_band_scenario :
    image_asset_from_href "S2A.SAFE/GRANULE/T01CCV_20210214T042702_B04_10m.jp2"
      [(10, (10980, 10980))] [499980, 6090220, 609780, 6200020] none
      = .ok ("B04",
        { href := "S2A.SAFE/GRANULE/T01CCV_20210214T042702_B04_10m.jp2",
          media_type := MediaType.JPEG2000,
          title := some (sentinelBand "B04").description,
          roles := ["data"],
          eo_bands := some [sentinelBand "B04"],
          gsd := some 10,
          proj_shape := some [10980, 10980],
          proj_bbox := some [499980, 6090220, 609780, 6200020],
          proj_transform := some (transform_from_bbox
            [499980, 6090220, 609780, 6200020] [10980, 10980]) }) ∧
    transform_from_bbox [499980, 6090220, 609780, 6200020] [10980, 10980]
      = [10, 0, 499980, 0, -10, 6200020] :=
  ⟨rfl, by norm_num [transform_from_bbox]⟩

/-- C10: an image href that reaches the band branch (media type
determinable, no `_PVI`, gsd extractable) and whose leftmost band-pattern
match is a code outside the fixed band table fails with a `KeyError`-class
lookup error (from the resolution-table or the band-table lookup), never
returning an asset and never raising the unclassified-asset error. -/
theorem c10_unknown_band_code_keyerror (asset_href : String)
    (table : List (Nat × Nat × Nat)) (bbox : List ℚ) (mt : Option String) (m : String)
    (g : Nat) (code : String)
    (hm : determine_media_type mt asset_href = .ok m)
    (hpvi : strContains asset_href "_PVI" = false)
    (hgsd : extract_gsd asset_href = some g)
    (hband : findBandCode asset_href.data = some code)
    (hcode : dictLookup SENTINEL_BANDS code = none) :
    isKeyErrorResult (image_asset_from_href asset_href table bbox mt) = true := by
  unfold image_asset_from_href
  rw [hm]
  cases hres : dictLookup table g with
  | none =>
      simp [hpvi, hgsd, hres, isKeyErrorResult, ClassifierError.isKeyError]
  | some shp =>
      simp [hpvi, hgsd, hres, hband, hcode, isKeyErrorResult, ClassifierError.isKeyError]

/-- C10 witness: `x_BXX_10m.jp2` matches the band pattern with code `BXX`,
which is not in the band table, and classification fails with a
`KeyError`-class error (concretely, the band-table lookup failure). -/
theorem c10_unknown_band_code_keyerror_witness :
    isKeyErrorResult (image_asset_from_href "x_BXX_10m.jp2"
        [(10, (10980, 10980))] [499980, 6090220, 609780, 6200020] none) = true ∧
    image_asset_from_href "x_BXX_10m.jp2"
        [(10, (10980, 10980))] [499980, 6090220, 609780, 6200020] none
      = .error (.keyErrorBand "BXX") :=
  ⟨c10_unknown_band_code_keyerror "x_BXX_10m.jp2"
    [(10, (10980, 10980))] [499980, 6090220, 609780, 6200020] none
    MediaType.JPEG2000 10 "BXX" rfl rfl rfl rfl rfl,
   rfl⟩

end Sentinel2

namespace Sentinel2

/-- An XML metadata asset with role `"metadata"`, as built for the INSPIRE
and datastrip entries and as returned by the readers' `create_asset` in the
concrete scenarios below. -/
def mdAsset (h : String) : Asset :=
  { href := h, media_type := MediaType.XML, title := none, roles := ["metadata"],
    eo_bands := none, gsd := none, proj_shape := none, proj_bbox := none,
    proj_transform := none }

/-- C3: when the granule metadata reader yields no EPSG code (and the
orbit-state conversion earlier in the assembly succeeds), `create_item`
fails with the configuration `ValueError` whose message names the offending
granule href, and returns no record — the result is the bare error value,
so no caller-observable state is produced. -/
theorem c3_missing_epsg (granule_href : String) (sm : SafeManifest) (pm : ProductMetadata)
    (gm : GranuleMetadata) (addl : List String) (os : OrbitState)
    (horbit : OrbitState.fromString (strToLower pm.orbit_state) = some os)
    (hepsg : gm.epsg = none) :
    create_item granule_href sm pm gm addl =
      .error (.valueErrorEpsg
        ("Could not determine EPSG code for " ++ granule_href ++ "; which is required.")) ∧
    strContains ("Could not determine EPSG code for " ++ granule_href ++ "; which is required.")
      granule_href = true := by
  constructor
  · unfold create_item
    rw [horbit, hepsg]
  · exact strContains_append "Could not determine EPSG code for " granule_href
      "; which is required."

def c3Manifest : SafeManifest :=
  { product_metadata_href := "S2A.SAFE/product.xml",
    granule_metadata_href := "S2A.SAFE/granule.xml",
    inspire_metadata_href := "S2A.SAFE/inspire.xml",
    datastrip_metadata_href := "S2A.SAFE/datastrip.xml",
    thumbnail_href := none,
    manifest_asset_key := "safe-manifest",
    manifest_asset := mdAsset "S2A.SAFE/manifest.safe" }

def c3Product : ProductMetadata :=
  { product_id := "S2A_MSIL2A_20160327T204522_N0212_R128_T01CCV_20210214T042702",
    geometry := "polygon", bbox := [], datetime := "2016-03-27T20:45:22Z",
    platform := "Sentinel-2A", orbit_state := "ASCENDING", relative_orbit := 128,
    image_media_type := none, image_paths := [], metadata_dict := [],
    product_asset_key := "product-metadata",
    product_asset := mdAsset "S2A.SAFE/product.xml" }

def c3Granule : GranuleMetadata :=
  { cloudiness_percentage := some 30, epsg := none, resolution_to_shape := [],
    proj_bbox := [], metadata_dict := [],
    granule_asset_key := "granule-metadata",
    granule_asset := mdAsset "S2A.SAFE/granule.xml" }

/-- C3 witness: with a granule reader yielding `epsg = none`, assembly of
`https://example.com/S2A.SAFE` fails with the configuration error whose
message contains that granule href. -/
theorem c3_missing_epsg_witness :
    create_item "https://example.com/S2A.SAFE" c3Manifest c3Product c3Granule [] =
      .error (.valueErrorEpsg
        "Could not determine EPSG code for https://example.com/S2A.SAFE; which is required.") ∧
    strContains "Could not determine EPSG code for https://example.com/S2A.SAFE; which is required."
      "https://example.com/S2A.SAFE" = true :=
  c3_missing_epsg "https://example.com/S2A.SAFE" c3Manifest c3Product c3Granule []
    .ascending rfl rfl

/-- C7: whenever assembly succeeds, the record's property map behaves as the
ordered merge of the product reader's metadata dictionary followed by the
granule reader's: a key present in the granule dictionary has its
granule-level value in the final record, a key present only in the product
dictionary keeps its product value, and a key present in neither is absent. -/
theorem c7_properties_merge (granule_href : String) (sm : SafeManifest)
    (pm : ProductMetadata) (gm : GranuleMetadata) (addl : List String) (it : Item)
    (hok : create_item granule_href sm pm gm addl = Except.ok it)
    (hpn : (pm.metadata_dict.map Prod.fst).Nodup)
    (hgn : (gm.metadata_dict.map Prod.fst).Nodup) :
    (∀ k v, dictLookup gm.metadata_dict k = some v →
      dictLookup it.properties k = some v) ∧
    (∀ k v, dictLookup gm.metadata_dict k = none →
      dictLookup pm.metadata_dict k = some v → dictLookup it.properties k = some v) ∧
    (∀ k, dictLookup gm.metadata_dict k = none →
      dictLookup pm.metadata_dict k = none → dictLookup it.properties k = none) := by
  have hprops := create_item_ok_properties granule_href sm pm gm addl it hok
  have key : ∀ k, dictLookup it.properties k =
      optOr (dictLookup gm.metadata_dict k) (dictLookup pm.metadata_dict k) := by
    intro k
    rw [hprops, mergedProperties, dictLookup_updateDict,
      dictLookup_reverse_of_nodup _ hgn, dictLookup_updateDict,
      dictLookup_reverse_of_nodup _ hpn]
    cases dictLookup gm.metadata_dict k <;>
      cases dictLookup pm.metadata_dict k <;> rfl
  refine ⟨?_, ?_, ?_⟩
  · intro k v h
    rw [key k, h]
    rfl
  · intro k v hg hp
    rw [key k, hg, hp]
    rfl
  · intro k hg hp
    rw [key k, hg, hp]
    rfl

def c7Manifest : SafeManifest :=
  { product_metadata_href := "product.xml",
    granule_metadata_href := "granule.xml",
    inspire_metadata_href := "inspire.xml",
    datastrip_metadata_href := "datastrip.xml",
    thumbnail_href := none,
    manifest_asset_key := "safe-manifest",
    manifest_asset := mdAsset "manifest.safe" }

def c7Product : ProductMetadata :=
  { product_id := "S2A_MSIL2A_X", geometry := "polygon", bbox := [],
    datetime := "2016-03-27T20:45:22Z", platform := "Sentinel-2A",
    orbit_state := "DESCENDING", relative_orbit := 128, image_media_type := none,
    image_paths := [], metadata_dict := [("a", "pa"), ("b", "pb")],
    product_asset_key := "product-metadata",
    product_asset := mdAsset "product.xml" }

def c7Granule : GranuleMetadata :=
  { cloudiness_percentage := some 30, epsg := some 32701,
    resolution_to_shape := [], proj_bbox := [],
    metadata_dict := [("b", "gb"), ("c", "gc")],
    granule_asset_key := "granule-metadata",
    granule_asset := mdAsset "granule.xml" }

def c7Item : Item :=
  { id := "S2A_MSIL2A_X", geometry := "polygon", bbox := [],
    datetime := "2016-03-27T20:45:22Z",
    properties := [("a", "pa"), ("b", "gb"), ("c", "gc")],
    providers := [SENTINEL_PROVIDER], platform := "Sentinel-2A",
    constellation := SENTINEL_CONSTELLATION, instruments := SENTINEL_INSTRUMENTS,
    eo_cloud_cover := some 30, sat_orbit_state := .descending,
    sat_relative_orbit := 128, proj_epsg := 32701,
    assets := [("safe-manifest", mdAsset "manifest.safe"),
               ("product-metadata", mdAsset "product.xml"),
               ("granule-metadata", mdAsset "granule.xml"),
               ("inspire-metadata", mdAsset "inspire.xml"),
               ("datastrip-metadata", mdAsset "datastrip.xml")],
    links := [SENTINEL_LICENSE] }

/-- C7 witness: for concrete product properties `{a: pa, b: pb}` and granule
properties `{b: gb, c: gc}`, the assembled record maps `b` to the
granule-level `gb`, keeps the product-only `a`, and has no entry for a key
in neither dictionary. -/
theorem c7_properties_merge_witness :
    dictLookup c7Item.properties "b" = some "gb" ∧
    dictLookup c7Item.properties "a" = some "pa" ∧
    dictLookup c7Item.properties "zz" = none :=
  ⟨(c7_properties_merge "gh" c7Manifest c7Product c7Granule [] c7Item rfl
      (by decide) (by decide)).1 "b" "gb" rfl,
   (c7_properties_merge "gh" c7Manifest c7Product c7Granule [] c7Item rfl
      (by decide) (by decide)).2.1 "a" "pa" rfl rfl,
   (c7_properties_merge "gh" c7Manifest c7Product c7Granule [] c7Item rfl
      (by decide) (by decide)).2.2 "zz" rfl rfl⟩

end Sentinel2

namespace Sentinel2

def c1Manifest : SafeManifest :=
  { product_metadata_href := "product.xml",
    granule_metadata_href := "granule.xml",
    inspire_metadata_href := "inspire.xml",
    datastrip_metadata_href := "datastrip.xml",
    thumbnail_href := none,
    manifest_asset_key := "safe-manifest",
    manifest_asset := mdAsset "manifest.safe" }

def c1Product : ProductMetadata :=
  { product_id := "S2A_MSIL2A_X", geometry := "polygon", bbox := [],
    datetime := "2016-03-27T20:45:22Z", platform := "Sentinel-2A",
    orbit_state := "ASCENDING", relative_orbit := 128, image_media_type := none,
    image_paths := ["IMG/a_TCI_10m.jp2", "IMG/b_TCI_10m.jp2"],
    metadata_dict := [],
    product_asset_key := "product-metadata",
    product_asset := mdAsset "product.xml" }

def c1Granule : GranuleMetadata :=
  { cloudiness_percentage := some 30, epsg := some 32701,
    resolution_to_shape := [(10, (10980, 10980))],
    proj_bbox := [499980, 6090220, 609780, 6200020],
    metadata_dict := [],
    granule_asset_key := "granule-metadata",
    granule_asset := mdAsset "granule.xml" }

/-- C1: two distinct image paths that classify to the same key
(`IMG/a_TCI_10m.jp2` and `IMG/b_TCI_10m.jp2`, both `visual-10m`) do NOT
make assembly raise the invariant violation: `dict(...)` silently collapses
the duplicate before the assertion runs, `create_item` succeeds, exactly one
`visual-10m` asset remains and its href is the one built from the
later path — the earlier asset was silently overwritten. -/
theorem c1_duplicate_key_silent_overwrite :
    ((classifyImages "https://example.com/S2A.SAFE" c1Product c1Granule).toOption.map
        (List.map Prod.fst)) = some ["visual-10m", "visual-10m"] ∧
    (create_item "https://example.com/S2A.SAFE" c1Manifest c1Product c1Granule []).isOk
      = true ∧
    ((create_item "https://example.com/S2A.SAFE" c1Manifest c1Product c1Granule []).toOption.bind
        (fun it => dictLookup it.assets "visual-10m")).map Asset.href
      = some "https://example.com/S2A.SAFE/IMG/b_TCI_10m.jp2" ∧
    ((create_item "https://example.com/S2A.SAFE" c1Manifest c1Product c1Granule []).toOption.map
        (fun it => (it.assets.filter (fun pr => pr.1 == "visual-10m")).length))
      = some 1 :=
  ⟨rfl, rfl, rfl, rfl⟩

end Sentinel2
